import Mathlib

/-!
Verification of the identity-rotation core of the Gui-Python repository:
the rotation worker retry loop (`worker.py` / `core.py`), the JSON-lines
change log (`database/logging.py`) and the URL reputation checker
(`network.py`), shallowly embedded in Lean 4.  External I/O (HTTP calls,
the Tor control channel, the clock, file-system success) is supplied as
explicit oracle values, so every function here is a pure, executable
translation of the corresponding Python code.
-/

/-- The sentinel string the source uses for an undetermined address or
location ("Not Defined"). -/
def notDefined : String := "Not Defined"

/-- Embedding of `database/models.py` `AppConfig`. -/
structure AppConfig where
  tor_socks_proxy : String
  tor_control_port : Nat
  log_enabled : Bool
  log_file : String
  telegram_enabled : Bool
  telegram_bot_token : String
  telegram_chat_id : String
  virustotal_enabled : Bool
  virustotal_api_key : String
  block_suspicious_urls : Bool
deriving DecidableEq, Repr

/-- Embedding of `database/models.py` `ChangeResult`: the ten fields of a
rotation outcome. -/
structure ChangeResult where
  timestamp : String
  real_ip : String
  old_tor_ip : String
  new_tor_ip : String
  old_country : String
  old_city : String
  new_country : String
  new_city : String
  changed : Bool
  note : String
deriving DecidableEq, Repr

/-- A physical line of the log file, as `read_last_logs` classifies it after
`strip()`: blank, unparseable JSON, or a JSON record carrying the ten fields
of a `ChangeResult` (the shape `append_log` writes). -/
inductive LogLine where
  | blank : LogLine
  | malformed : LogLine
  | record : ChangeResult → LogLine
deriving DecidableEq, Repr

/-- The state of the log file: `none` when the file does not exist,
`some lines` when it exists with the given lines. -/
def LogState := Option (List LogLine)

/-- `json.loads` of one stripped line, as far as the log reader cares:
blank lines are skipped before parsing, malformed lines fail to parse, and
record lines yield the ten-field dictionary. -/
def parseLine : LogLine → Option ChangeResult
  | LogLine.blank => none
  | LogLine.malformed => none
  | LogLine.record r => some r

/-- Embedding of `database/logging.py` `append_log`.  `ioOk` is the oracle
for the file I/O: when the open/write raises, the except clause swallows the
error and the state is unchanged.  Mode "a" creates a missing file, so a
successful append on state `none` yields a one-line file. -/
def append_log (config : AppConfig) (result : ChangeResult) (ioOk : Bool)
    (st : LogState) : LogState :=
  if config.log_enabled = false then st
  else if ioOk then some ((st.getD []) ++ [LogLine.record result])
  else st

/-- Python list slice `items[-limit:]` for a non-negative `limit`: the last
`limit` elements, except that `limit = 0` gives `items[-0:] = items[0:]`,
the whole list. -/
def pySliceLast {α : Type} (limit : Nat) (items : List α) : List α :=
  if limit = 0 then items else items.drop (items.length - limit)

/-- Embedding of `database/logging.py` `read_last_logs`.  `readOk` is the
oracle for the read I/O; on failure the outer except returns `[]`.  A missing
file returns `[]`; otherwise blank and malformed lines are skipped and the
last `limit` parsed records are returned most recent first. -/
def read_last_logs (st : LogState) (limit : Nat) (readOk : Bool) :
    List ChangeResult :=
  match st with
  | none => []
  | some lines =>
    if readOk then (pySliceLast limit (lines.filterMap parseLine)).reverse
    else []

/-- Embedding of `database/logging.py` `clear_logs`.  `removeOk` is the
oracle for `os.remove`; a raising removal is caught and reported as `false`.
Returns the reported boolean together with the resulting log state. -/
def clear_logs (removeOk : Bool) (st : LogState) : Bool × LogState :=
  match st with
  | some lines => if removeOk then (true, none) else (false, some lines)
  | none => (true, none)

/-- The parsed records of a log state in append order (empty for a missing
file); blank and malformed lines contribute nothing. -/
def logRecords (st : LogState) : List ChangeResult :=
  match st with
  | none => []
  | some lines => lines.filterMap parseLine

/-- Embedding of `core.py` `get_location_for_ip`.  `lookup` is the oracle
for the geolocation HTTP call: `none` models a non-200 response or an
exception; `some (c, ci)` models a 200 JSON body whose `country_name` and
`city` fields are as given (`none` for a missing field, and the source's
`or "Not Defined"` also replaces an empty string). -/
def get_location_for_ip
    (lookup : String → Option (Option String × Option String))
    (ip : String) : String × String :=
  if ip = "" ∨ ip = notDefined then (notDefined, notDefined)
  else
    match lookup ip with
    | none => (notDefined, notDefined)
    | some (c, ci) =>
      ((match c with
        | none => notDefined
        | some v => if v = "" then notDefined else v),
       (match ci with
        | none => notDefined
        | some v => if v = "" then notDefined else v))

/-- Embedding of `core.py` `tor_newnym`.  `attempt` is the oracle for the
stem controller interaction: `Except.error e` models an exception with
message `e`, which the source re-raises wrapped with the control port. -/
def tor_newnym (control_port : Nat) (attempt : Except String Unit) :
    Except String Unit :=
  match attempt with
  | Except.ok _ => Except.ok ()
  | Except.error e =>
    Except.error ("Failed to connect to Tor control port "
      ++ toString control_port ++ ": " ++ e)

/-- The note `worker.py` sets on an iteration that did not change the exit
address. -/
def unchangedNote : String :=
  "Circuit refreshed but exit IP may stay the same (normal sometimes)."

/-- The external world as `ChangeWorker.run` observes it: the real-IP
lookup, the pre-loop Tor-IP lookup, the per-iteration Tor-IP lookups and
NEWNYM attempts, the geolocation service, the clock, and the append-I/O
oracle. -/
structure WorkerEnv where
  real_ip : String
  pre_ip : String
  resolved : Nat → String
  newnym : Nat → Except String Unit
  lookup : String → Option (Option String × Option String)
  now : String
  appendOk : Bool

/-- The retry loop of `ChangeWorker.run` (`for attempt in range(retries+1)`),
started at iteration index `i` with `fuel` iterations remaining, the current
`note` and the current value `cur` of the `new_ip` variable.  Returns the
final `(new_ip, note)` together with the number of `tor_newnym` invocations,
or propagates the first `tor_newnym` failure. -/
def runLoop (env : WorkerEnv) (port : Nat) (old_ip : String)
    (i fuel : Nat) (note cur : String) :
    Except String (String × String × Nat) :=
  match fuel with
  | 0 => Except.ok (cur, note, 0)
  | fuel' + 1 =>
    match tor_newnym port (env.newnym i) with
    | Except.error e => Except.error e
    | Except.ok _ =>
      let new_ip := env.resolved i
      if new_ip ≠ notDefined ∧ new_ip ≠ old_ip then
        Except.ok (new_ip, note, 1)
      else
        match runLoop env port old_ip (i + 1) fuel' unchangedNote new_ip with
        | Except.error e => Except.error e
        | Except.ok (nip, nnote, c) => Except.ok (nip, nnote, c + 1)

/-- Embedding of `ChangeWorker.run` (`worker.py`).  Returns either the
emitted `ChangeResult` together with the number of `tor_newnym` invocations
(the `done` path) or the exception message (the `failed` path), paired with
the log state after the run.  Notification is fire-and-forget and does not
touch the modelled state. -/
def changeWorkerRun (config : AppConfig) (retries : Nat) (env : WorkerEnv)
    (st : LogState) : Except String (ChangeResult × Nat) × LogState :=
  let old_ip := env.pre_ip
  let oldLoc := get_location_for_ip env.lookup old_ip
  match runLoop env config.tor_control_port old_ip 0 (retries + 1) "" old_ip with
  | Except.error e => (Except.error e, st)
  | Except.ok (new_ip, note, calls) =>
    let newLoc := get_location_for_ip env.lookup new_ip
    let changed : Bool :=
      decide (new_ip ≠ notDefined ∧ old_ip ≠ notDefined ∧ new_ip ≠ old_ip)
    let res : ChangeResult :=
      ⟨env.now, env.real_ip, old_ip, new_ip, oldLoc.1, oldLoc.2,
       newLoc.1, newLoc.2, changed, note⟩
    (Except.ok (res, calls), append_log config res env.appendOk st)

/-- An iteration of the retry loop whose resolved address passes the break
test against `old_ip`: defined and different from `old_ip`. -/
def goodAt (env : WorkerEnv) (old_ip : String) (i : Nat) : Prop :=
  env.resolved i ≠ notDefined ∧ env.resolved i ≠ old_ip

instance (env : WorkerEnv) (old_ip : String) :
    DecidablePred (goodAt env old_ip) := fun i => by
  unfold goodAt
  infer_instance

/-- Embedding of `database/models.py` `URLReputationResult`. -/
structure URLReputationResult where
  url : String
  is_safe : Bool
  threat_level : String
  threat_count : Nat
  analysis_date : String
  details : String
deriving DecidableEq, Repr

/-- The `stats` object of a VirusTotal analysis body. -/
structure AnalysisStats where
  malicious : Nat
  suspicious : Nat
  undetected : Nat
deriving DecidableEq, Repr

/-- Outcome of one `requests` call in `check_url_reputation`:
a `requests.exceptions.Timeout`, any other exception (with its message,
also covering a body whose JSON or expected keys are missing, since the
subsequent subscripting raises inside the same try), or a response with a
status code and a successfully extracted body of type `β`. -/
inductive ReqResult (β : Type) where
  | timeout : ReqResult β
  | exn : String → ReqResult β
  | resp : Nat → β → ReqResult β

/-- Embedding of `network.py` `check_url_reputation`.  `scan` is the POST to
the scan endpoint, carrying `some id` when `scan_data["data"]["id"]` is
extractable from a body and `none` when subscripting it would raise
(folded into `ReqResult.exn` by the caller via `scanBody`); `analysis` is
the GET of the analysis, carrying `some stats` when
`["data"]["attributes"]["stats"]` is extractable.  `now` is the clock.
The result is an `Option` because the Python function has a code path with
no return statement: a non-200 analysis status raises nothing and falls off
the end of the try block, returning `None`. -/
def check_url_reputation (url api_key : String)
    (scan : ReqResult (Option String))
    (analysis : ReqResult (Option AnalysisStats))
    (now : String) : Option URLReputationResult :=
  if api_key = "" ∨ url = "" then
    some ⟨url, false, "unknown", 0, "", "API key is missing"⟩
  else
    match scan with
    | ReqResult.timeout =>
      some ⟨url, false, "error", 0, "", "VirusTotal API timeout"⟩
    | ReqResult.exn e =>
      some ⟨url, false, "error", 0, "", "Error checking reputation: " ++ e⟩
    | ReqResult.resp status body =>
      if status ≠ 200 then
        some ⟨url, false, "error", 0, "",
          "VirusTotal API error: " ++ toString status⟩
      else
        match body with
        | none =>
          some ⟨url, false, "error", 0, "",
            "Error checking reputation: KeyError"⟩
        | some _analysis_id =>
          match analysis with
          | ReqResult.timeout =>
            some ⟨url, false, "error", 0, "", "VirusTotal API timeout"⟩
          | ReqResult.exn e =>
            some ⟨url, false, "error", 0, "",
              "Error checking reputation: " ++ e⟩
          | ReqResult.resp astatus abody =>
            if astatus = 200 then
              match abody with
              | none =>
                some ⟨url, false, "error", 0, "",
                  "Error checking reputation: KeyError"⟩
              | some stats =>
                let threat_count := stats.malicious + stats.suspicious
                let threat_level : String :=
                  if stats.malicious > 0 then "malicious"
                  else if stats.suspicious > 0 then "suspicious"
                  else "clean"
                let is_safe : Bool := threat_level = "clean"
                let details :=
                  "Malicious: " ++ toString stats.malicious
                    ++ " | Suspicious: " ++ toString stats.suspicious
                    ++ " | Clean: " ++ toString stats.undetected
                some ⟨url, is_safe, threat_level, threat_count, now, details⟩
            else
              none

/-! ### Lemmas about the retry loop -/

/-- A successful stem interaction makes `tor_newnym` succeed. -/
theorem tor_newnym_ok (port : Nat) :
    tor_newnym port (Except.ok ()) = Except.ok () := rfl

/-- One-step unfolding of the retry loop at positive fuel. -/
theorem runLoop_succ (env : WorkerEnv) (port : Nat) (old_ip : String)
    (i fuel : Nat) (note cur : String) :
    runLoop env port old_ip i (fuel + 1) note cur =
      match tor_newnym port (env.newnym i) with
      | Except.error e => Except.error e
      | Except.ok _ =>
        if env.resolved i ≠ notDefined ∧ env.resolved i ≠ old_ip then
          Except.ok (env.resolved i, note, 1)
        else
          match runLoop env port old_ip (i + 1) fuel unchangedNote
              (env.resolved i) with
          | Except.error e => Except.error e
          | Except.ok (nip, nnote, c) => Except.ok (nip, nnote, c + 1) := rfl

/-- When every NEWNYM attempt succeeds, the retry loop terminates normally
and invokes `tor_newnym` at most once per remaining iteration. -/
theorem runLoop_ok (env : WorkerEnv) (port : Nat) (old_ip : String)
    (hok : ∀ j, env.newnym j = Except.ok ()) :
    ∀ (fuel i : Nat) (note cur : String),
      ∃ nip nnote c,
        runLoop env port old_ip i fuel note cur = Except.ok (nip, nnote, c) ∧
        c ≤ fuel := by
  intro fuel
  induction fuel with
  | zero =>
    intro i note cur
    exact ⟨cur, note, 0, rfl, Nat.le_refl 0⟩
  | succ f ih =>
    intro i note cur
    by_cases hgood : env.resolved i ≠ notDefined ∧ env.resolved i ≠ old_ip
    · refine ⟨env.resolved i, note, 1, ?_, by omega⟩
      rw [runLoop_succ]
      simp only [hok i, tor_newnym_ok, if_pos hgood]
    · obtain ⟨nip, nnote, c, heq, hc⟩ := ih (i + 1) unchangedNote (env.resolved i)
      refine ⟨nip, nnote, c + 1, ?_, by omega⟩
      rw [runLoop_succ]
      simp only [hok i, tor_newnym_ok, if_neg hgood, heq]

/-- If no iteration of the remaining window passes the break test, the loop
runs all of its iterations, invoking `tor_newnym` exactly `fuel + 1` times,
and ends with the last resolved address and the unchanged-note. -/
theorem runLoop_no_good (env : WorkerEnv) (port : Nat) (old_ip : String)
    (hok : ∀ j, env.newnym j = Except.ok ()) :
    ∀ (fuel i : Nat) (note cur : String),
      (∀ k, k < fuel + 1 → ¬ goodAt env old_ip (i + k)) →
      runLoop env port old_ip i (fuel + 1) note cur =
        Except.ok (env.resolved (i + fuel), unchangedNote, fuel + 1) := by
  intro fuel
  induction fuel with
  | zero =>
    intro i note cur hng
    have h0 : ¬ (env.resolved i ≠ notDefined ∧ env.resolved i ≠ old_ip) := by
      have := hng 0 (by omega)
      simpa [goodAt] using this
    rw [runLoop_succ]
    simp only [hok i, tor_newnym_ok, if_neg h0, runLoop]
    simp
  | succ f ih =>
    intro i note cur hng
    have h0 : ¬ (env.resolved i ≠ notDefined ∧ env.resolved i ≠ old_ip) := by
      have := hng 0 (by omega)
      simpa [goodAt] using this
    have hng' : ∀ k, k < f + 1 → ¬ goodAt env old_ip (i + 1 + k) := by
      intro k hk
      have := hng (k + 1) (by omega)
      have harith : i + (k + 1) = i + 1 + k := by omega
      rwa [harith] at this
    have hrec := ih (i + 1) unchangedNote (env.resolved i) hng'
    rw [runLoop_succ]
    simp only [hok i, tor_newnym_ok, if_neg h0, hrec]
    rw [show i + 1 + f = i + (f + 1) from by omega]

/-- If iteration `i + k` is the first remaining iteration to pass the break
test and `k` is within the remaining fuel, the loop breaks there: it
invokes `tor_newnym` exactly `k + 1` times, returns the address resolved at
that iteration, and keeps the incoming note when the very first remaining
iteration breaks, the unchanged-note otherwise. -/
theorem runLoop_first_good (env : WorkerEnv) (port : Nat) (old_ip : String)
    (hok : ∀ j, env.newnym j = Except.ok ()) :
    ∀ (k fuel i : Nat) (note cur : String),
      k < fuel →
      goodAt env old_ip (i + k) →
      (∀ j, j < k → ¬ goodAt env old_ip (i + j)) →
      runLoop env port old_ip i fuel note cur =
        Except.ok (env.resolved (i + k),
          (if k = 0 then note else unchangedNote), k + 1) := by
  intro k
  induction k with
  | zero =>
    intro fuel i note cur hk hgood _
    match fuel, hk with
    | f + 1, _ =>
      have hgood' : env.resolved i ≠ notDefined ∧ env.resolved i ≠ old_ip := by
        simpa [goodAt] using hgood
      rw [runLoop_succ]
      simp only [hok i, tor_newnym_ok, if_pos hgood']
      simp
  | succ k' ih =>
    intro fuel i note cur hk hgood hmin
    match fuel, hk with
    | f + 1, hk =>
      have h0 : ¬ (env.resolved i ≠ notDefined ∧ env.resolved i ≠ old_ip) := by
        have := hmin 0 (by omega)
        simpa [goodAt] using this
      have hgood' : goodAt env old_ip (i + 1 + k') := by
        have harith : i + (k' + 1) = i + 1 + k' := by omega
        rwa [harith] at hgood
      have hmin' : ∀ j, j < k' → ¬ goodAt env old_ip (i + 1 + j) := by
        intro j hj
        have := hmin (j + 1) (by omega)
        have harith : i + (j + 1) = i + 1 + j := by omega
        rwa [harith] at this
      have hrec := ih f (i + 1) unchangedNote (env.resolved i)
        (by omega) hgood' hmin'
      rw [runLoop_succ]
      simp only [hok i, tor_newnym_ok, if_neg h0, hrec, ite_self]
      rw [show i + 1 + k' = i + (k' + 1) from by omega]
      simp

/-- If the first `k` iterations all succeed without passing the break test
and the NEWNYM attempt at iteration `i + k` fails, the loop propagates the
wrapped control-channel error. -/
theorem runLoop_fail (env : WorkerEnv) (port : Nat) (old_ip : String) :
    ∀ (k fuel i : Nat) (note cur e : String),
      k < fuel →
      env.newnym (i + k) = Except.error e →
      (∀ j, j < k → env.newnym (i + j) = Except.ok ()) →
      (∀ j, j < k → ¬ goodAt env old_ip (i + j)) →
      runLoop env port old_ip i fuel note cur =
        Except.error ("Failed to connect to Tor control port "
          ++ toString port ++ ": " ++ e) := by
  intro k
  induction k with
  | zero =>
    intro fuel i note cur e hk hfail _ _
    match fuel, hk with
    | f + 1, _ =>
      have hfi : env.newnym i = Except.error e := by simpa using hfail
      rw [runLoop_succ, hfi]
      simp only [tor_newnym]
  | succ k' ih =>
    intro fuel i note cur e hk hfail hok hng
    match fuel, hk with
    | f + 1, hk =>
      have h1 : env.newnym i = Except.ok () := by
        have := hok 0 (by omega)
        simpa using this
      have h0 : ¬ (env.resolved i ≠ notDefined ∧ env.resolved i ≠ old_ip) := by
        have := hng 0 (by omega)
        simpa [goodAt] using this
      have hfail' : env.newnym (i + 1 + k') = Except.error e := by
        have harith : i + (k' + 1) = i + 1 + k' := by omega
        rwa [harith] at hfail
      have hok' : ∀ j, j < k' → env.newnym (i + 1 + j) = Except.ok () := by
        intro j hj
        have := hok (j + 1) (by omega)
        have harith : i + (j + 1) = i + 1 + j := by omega
        rwa [harith] at this
      have hng' : ∀ j, j < k' → ¬ goodAt env old_ip (i + 1 + j) := by
        intro j hj
        have := hng (j + 1) (by omega)
        have harith : i + (j + 1) = i + 1 + j := by omega
        rwa [harith] at this
      have hrec := ih f (i + 1) unchangedNote (env.resolved i) e
        (by omega) hfail' hok' hng'
      rw [runLoop_succ]
      simp only [h1, tor_newnym_ok, if_neg h0, hrec]

/-! ### Log claims -/

/-- C5 (amended): for every log state and every positive limit `n`,
`read_last_logs` returns at most `n` records, ordered most recently
appended first (the reversed result is a suffix of the parsed records in
append order, malformed lines skipped), and a missing file yields an empty
result. -/
theorem read_last_logs_bounded_ordered (st : LogState) (n : Nat)
    (readOk : Bool) (hn : 1 ≤ n) :
    (read_last_logs st n readOk).length ≤ n ∧
    List.IsSuffix (read_last_logs st n readOk).reverse (logRecords st) ∧
    (st = none → read_last_logs st n readOk = []) := by
  match st with
  | none =>
    refine ⟨by simp [read_last_logs], ?_, fun _ => rfl⟩
    simp [read_last_logs, logRecords]
  | some lines =>
    refine ⟨?_, ?_, fun h => by cases h⟩
    · cases readOk with
      | false => simp [read_last_logs]
      | true =>
        show ((pySliceLast n (lines.filterMap parseLine)).reverse).length ≤ n
        rw [List.length_reverse]
        unfold pySliceLast
        rw [if_neg (show ¬ n = 0 from by omega)]
        rw [List.length_drop]
        omega
    · cases readOk with
      | false =>
        show List.IsSuffix (([] : List ChangeResult)).reverse
          (lines.filterMap parseLine)
        rw [List.reverse_nil]
        exact List.nil_suffix
      | true =>
        show List.IsSuffix
          ((pySliceLast n (lines.filterMap parseLine)).reverse).reverse
          (lines.filterMap parseLine)
        rw [List.reverse_reverse]
        unfold pySliceLast
        rw [if_neg (show ¬ n = 0 from by omega)]
        exact List.drop_suffix _ _

/-- C5 counterexample: with limit `0` the Python slice `items[-0:]` selects
the whole list, so `read_last_logs` returns every record — here one record
(indeed both records, newest first, for a two-record file) — instead of at
most zero. -/
theorem read_last_logs_limit_zero_returns_all :
    read_last_logs (some [LogLine.record ⟨"2026-01-01 00:00:00", "9.9.9.9",
        "1.1.1.1", "2.2.2.2", "A", "B", "C", "D", true, ""⟩,
      LogLine.record ⟨"2026-01-01 00:01:00", "9.9.9.9",
        "2.2.2.2", "3.3.3.3", "C", "D", "E", "F", true, ""⟩]) 0 true
      = [⟨"2026-01-01 00:01:00", "9.9.9.9", "2.2.2.2", "3.3.3.3",
          "C", "D", "E", "F", true, ""⟩,
         ⟨"2026-01-01 00:00:00", "9.9.9.9", "1.1.1.1", "2.2.2.2",
          "A", "B", "C", "D", true, ""⟩] ∧
    (read_last_logs (some [LogLine.record ⟨"2026-01-01 00:00:00", "9.9.9.9",
        "1.1.1.1", "2.2.2.2", "A", "B", "C", "D", true, ""⟩,
      LogLine.record ⟨"2026-01-01 00:01:00", "9.9.9.9",
        "2.2.2.2", "3.3.3.3", "C", "D", "E", "F", true, ""⟩]) 0 true).length
      = 2 := by
  constructor
  · rfl
  · rfl

/-- C5 witness: the amended bound applied at limit 1 to a two-record file
with a malformed line. -/
theorem read_last_logs_bounded_ordered_witness :
    (1 : Nat) ≤ 1 ∧
    ((read_last_logs (some [LogLine.record ⟨"t1", "r", "a", "b",
        "c1", "c2", "c3", "c4", true, ""⟩, LogLine.malformed,
      LogLine.record ⟨"t2", "r", "b", "a", "c3", "c4", "c1", "c2",
        true, ""⟩]) 1 true).length ≤ 1 ∧
     List.IsSuffix (read_last_logs (some [LogLine.record ⟨"t1", "r", "a",
        "b", "c1", "c2", "c3", "c4", true, ""⟩, LogLine.malformed,
      LogLine.record ⟨"t2", "r", "b", "a", "c3", "c4", "c1", "c2",
        true, ""⟩]) 1 true).reverse
       (logRecords (some [LogLine.record ⟨"t1", "r", "a", "b",
        "c1", "c2", "c3", "c4", true, ""⟩, LogLine.malformed,
      LogLine.record ⟨"t2", "r", "b", "a", "c3", "c4", "c1", "c2",
        true, ""⟩])) ∧
     ((some [LogLine.record ⟨"t1", "r", "a", "b", "c1", "c2", "c3", "c4",
        true, ""⟩, LogLine.malformed, LogLine.record ⟨"t2", "r", "b", "a",
        "c3", "c4", "c1", "c2", true, ""⟩] : LogState) = none →
      read_last_logs (some [LogLine.record ⟨"t1", "r", "a", "b",
        "c1", "c2", "c3", "c4", true, ""⟩, LogLine.malformed,
      LogLine.record ⟨"t2", "r", "b", "a", "c3", "c4", "c1", "c2",
        true, ""⟩]) 1 true = [])) :=
  ⟨Nat.le_refl 1,
   read_last_logs_bounded_ordered (some [LogLine.record ⟨"t1", "r", "a",
      "b", "c1", "c2", "c3", "c4", true, ""⟩, LogLine.malformed,
    LogLine.record ⟨"t2", "r", "b", "a", "c3", "c4", "c1", "c2",
      true, ""⟩]) 1 true (Nat.le_refl 1)⟩

/-- C6: with logging enabled and a successful append I/O, appending an
outcome and then reading the most recent record returns exactly that
outcome, all ten fields included, whatever the prior log state. -/
theorem append_then_read_roundtrip (config : AppConfig) (o : ChangeResult)
    (st : LogState) (hlog : config.log_enabled = true) :
    read_last_logs (append_log config o true st) 1 true = [o] := by
  have h1 : append_log config o true st =
      some ((st.getD []) ++ [LogLine.record o]) := by
    simp [append_log, hlog]
  rw [h1]
  simp only [read_last_logs, if_pos rfl, List.filterMap_append]
  have h2 : List.filterMap parseLine [LogLine.record o] = [o] := rfl
  rw [h2]
  simp only [pySliceLast]
  rw [if_neg (show ¬ (1 : Nat) = 0 from by omega)]
  have h3 : ∀ xs : List ChangeResult,
      (xs ++ [o]).length - 1 = xs.length := by
    intro xs
    simp
  rw [h3, List.drop_left]
  rfl

/-- C6 witness: round trip on a prior state holding one malformed line. -/
theorem append_then_read_roundtrip_witness :
    (⟨"p", 9051, true, "f", false, "", "", false, "", true⟩ :
        AppConfig).log_enabled = true ∧
    read_last_logs (append_log ⟨"p", 9051, true, "f", false, "", "",
        false, "", true⟩ ⟨"t", "r", "a", "b", "c1", "c2", "c3", "c4",
        true, "n"⟩ true (some [LogLine.malformed])) 1 true
      = [⟨"t", "r", "a", "b", "c1", "c2", "c3", "c4", true, "n"⟩] :=
  ⟨rfl, append_then_read_roundtrip ⟨"p", 9051, true, "f", false, "", "",
      false, "", true⟩ ⟨"t", "r", "a", "b", "c1", "c2", "c3", "c4",
      true, "n"⟩ (some [LogLine.malformed]) rfl⟩

/-- C7: whenever `clear_logs` reports success, reading the resulting log
state yields the empty list for every limit and every read outcome;
`clear_logs` itself is a total boolean-returning function (removal failures
are caught and reported as `false`, never propagated). -/
theorem clear_success_empties_log (st : LogState) (removeOk : Bool)
    (h : (clear_logs removeOk st).1 = true) :
    ∀ (n : Nat) (readOk : Bool),
      read_last_logs (clear_logs removeOk st).2 n readOk = [] := by
  intro n readOk
  match st with
  | none => rfl
  | some lines =>
    cases removeOk with
    | false => cases h
    | true => rfl

/-- C7 witness: clearing a one-record file succeeds and empties it. -/
theorem clear_success_empties_log_witness :
    ((clear_logs true (some [LogLine.record ⟨"t", "r", "a", "b", "c1",
        "c2", "c3", "c4", false, ""⟩])).1 = true) ∧
    (∀ (n : Nat) (readOk : Bool),
      read_last_logs (clear_logs true (some [LogLine.record ⟨"t", "r",
        "a", "b", "c1", "c2", "c3", "c4", false, ""⟩])).2 n readOk = []) :=
  ⟨rfl, clear_success_empties_log (some [LogLine.record ⟨"t", "r", "a",
      "b", "c1", "c2", "c3", "c4", false, ""⟩]) true rfl⟩

/-- C10: `clear_logs` on a missing file performs no deletion and returns
`true` for every removal oracle; absent an I/O failure, two consecutive
calls both return `true` and the final state holds no records for any
read. -/
theorem clear_logs_idempotent (st : LogState) :
    (∀ removeOk, clear_logs removeOk none = (true, none)) ∧
    clear_logs true st = (true, none) ∧
    clear_logs true (clear_logs true st).2 = (true, none) ∧
    (∀ (n : Nat) (readOk : Bool),
      read_last_logs (clear_logs true (clear_logs true st).2).2 n
        readOk = []) := by
  refine ⟨fun removeOk => rfl, ?_, ?_, ?_⟩
  · match st with
    | none => rfl
    | some lines => rfl
  · match st with
    | none => rfl
    | some lines => rfl
  · intro n readOk
    match st with
    | none => rfl
    | some lines => rfl

/-! ### Worker claims -/

/-- Evaluating `ChangeWorker.run` when the retry loop succeeds: the emitted
outcome record and the appended log state, expressed from the loop
result. -/
theorem changeWorkerRun_ok_eq (config : AppConfig) (retries : Nat)
    (env : WorkerEnv) (st : LogState) (nip nnote : String) (c : Nat)
    (heq : runLoop env config.tor_control_port env.pre_ip 0 (retries + 1)
      "" env.pre_ip = Except.ok (nip, nnote, c)) :
    changeWorkerRun config retries env st =
      (Except.ok (⟨env.now, env.real_ip, env.pre_ip, nip,
        (get_location_for_ip env.lookup env.pre_ip).1,
        (get_location_for_ip env.lookup env.pre_ip).2,
        (get_location_for_ip env.lookup nip).1,
        (get_location_for_ip env.lookup nip).2,
        decide (nip ≠ notDefined ∧ env.pre_ip ≠ notDefined ∧
          nip ≠ env.pre_ip), nnote⟩, c),
       append_log config ⟨env.now, env.real_ip, env.pre_ip, nip,
        (get_location_for_ip env.lookup env.pre_ip).1,
        (get_location_for_ip env.lookup env.pre_ip).2,
        (get_location_for_ip env.lookup nip).1,
        (get_location_for_ip env.lookup nip).2,
        decide (nip ≠ notDefined ∧ env.pre_ip ≠ notDefined ∧
          nip ≠ env.pre_ip), nnote⟩ env.appendOk st) := by
  simp only [changeWorkerRun, heq]

/-- Evaluating `ChangeWorker.run` when the retry loop propagates a
control-channel failure: the error is emitted and the log state is
untouched. -/
theorem changeWorkerRun_error_eq (config : AppConfig) (retries : Nat)
    (env : WorkerEnv) (st : LogState) (e : String)
    (heq : runLoop env config.tor_control_port env.pre_ip 0 (retries + 1)
      "" env.pre_ip = Except.error e) :
    changeWorkerRun config retries env st = (Except.error e, st) := by
  simp only [changeWorkerRun, heq]

/-- C1: when every NEWNYM attempt succeeds, the run completes, invokes
`tor_newnym` at most `retries + 1` times, breaks exactly at the first
iteration whose resolved address is defined and differs from the address
held at loop entry (the pre-rotation address), and runs all `retries + 1`
iterations when no iteration qualifies. -/
theorem rotation_retry_bound_and_first_break (config : AppConfig)
    (retries : Nat) (env : WorkerEnv) (st : LogState)
    (hok : ∀ j, env.newnym j = Except.ok ()) :
    ∃ res calls,
      (changeWorkerRun config retries env st).1 = Except.ok (res, calls) ∧
      calls ≤ retries + 1 ∧
      (∀ k, k ≤ retries → goodAt env env.pre_ip k →
        (∀ j, j < k → ¬ goodAt env env.pre_ip j) →
        calls = k + 1 ∧ res.new_tor_ip = env.resolved k) ∧
      ((∀ k, k ≤ retries → ¬ goodAt env env.pre_ip k) →
        calls = retries + 1) := by
  obtain ⟨nip, nnote, c, heq, hc⟩ := runLoop_ok env config.tor_control_port
    env.pre_ip hok (retries + 1) 0 "" env.pre_ip
  have hw := changeWorkerRun_ok_eq config retries env st nip nnote c heq
  refine ⟨_, c, by rw [hw], hc, ?_, ?_⟩
  · intro k hk hgood hmin
    have heq2 := runLoop_first_good env config.tor_control_port env.pre_ip
      hok k (retries + 1) 0 "" env.pre_ip (by omega)
      (by rw [Nat.zero_add]; exact hgood)
      (fun j hj => by rw [Nat.zero_add]; exact hmin j hj)
    rw [heq] at heq2
    simp only [Except.ok.injEq, Prod.mk.injEq, Nat.zero_add] at heq2
    exact ⟨heq2.2.2, heq2.1⟩
  · intro hng
    have heq2 := runLoop_no_good env config.tor_control_port env.pre_ip
      hok retries 0 "" env.pre_ip
      (fun k hk => by rw [Nat.zero_add]; exact hng k (by omega))
    rw [heq] at heq2
    simp only [Except.ok.injEq, Prod.mk.injEq] at heq2
    exact heq2.2.2

/-- C2: for every run that completes without a control-channel failure, the
outcome's changed flag is true exactly when the pre- and post-rotation
addresses are both defined and unequal. -/
theorem changed_flag_iff (config : AppConfig) (retries : Nat)
    (env : WorkerEnv) (st : LogState) (res : ChangeResult) (calls : Nat)
    (h : (changeWorkerRun config retries env st).1 = Except.ok (res, calls)) :
    res.changed = true ↔
      (res.new_tor_ip ≠ notDefined ∧ res.old_tor_ip ≠ notDefined ∧
       res.new_tor_ip ≠ res.old_tor_ip) := by
  cases heq : runLoop env config.tor_control_port env.pre_ip 0
      (retries + 1) "" env.pre_ip with
  | error e =>
    rw [changeWorkerRun_error_eq config retries env st e heq] at h
    simp at h
  | ok t =>
    obtain ⟨nip, nnote, c⟩ := t
    rw [changeWorkerRun_ok_eq config retries env st nip nnote c heq] at h
    simp only [Except.ok.injEq, Prod.mk.injEq] at h
    obtain ⟨h1, h2⟩ := h
    rw [← h1]
    simp [decide_eq_true_eq]

/-- C3: if the NEWNYM signal fails at the first reached iteration `k`, the
whole operation fails with the wrapped control-channel error (carrying the
control port and the underlying cause) and the log state is untouched — no
outcome is appended for that run. -/
theorem control_failure_aborts_run (config : AppConfig) (retries : Nat)
    (env : WorkerEnv) (st : LogState) (k : Nat) (e : String)
    (hk : k ≤ retries)
    (hfail : env.newnym k = Except.error e)
    (hearlier : ∀ j, j < k → env.newnym j = Except.ok ())
    (hnb : ∀ j, j < k → ¬ goodAt env env.pre_ip j) :
    changeWorkerRun config retries env st =
      (Except.error ("Failed to connect to Tor control port "
        ++ toString config.tor_control_port ++ ": " ++ e), st) := by
  have heq := runLoop_fail env config.tor_control_port env.pre_ip k
    (retries + 1) 0 "" env.pre_ip e (by omega)
    (by rw [Nat.zero_add]; exact hfail)
    (fun j hj => by rw [Nat.zero_add]; exact hearlier j hj)
    (fun j hj => by rw [Nat.zero_add]; exact hnb j hj)
  exact changeWorkerRun_error_eq config retries env st _ heq

/-- Whether some completed run reports `changed` while its post-rotation
address equals its pre-rotation address — the situation claimed possible
for an oscillating address sequence. -/
def breaksChangedAtFirstAddress (config : AppConfig) (retries : Nat)
    (env : WorkerEnv) (st : LogState) : Bool :=
  match (changeWorkerRun config retries env st).1 with
  | Except.ok (res, _) => res.changed && (res.new_tor_ip == res.old_tor_ip)
  | Except.error _ => false

/-- Negation of the oscillation scenario in full generality: no
configuration, retry count, address sequence or log state makes the worker
report `changed` with a final address equal to the pre-rotation address,
because the loop compares against the pre-rotation address held fixed, not
against the address of the previous iteration. -/
theorem no_changed_outcome_at_first_address :
    ∀ (config : AppConfig) (retries : Nat) (env : WorkerEnv)
      (st : LogState),
      breaksChangedAtFirstAddress config retries env st = false := by
  intro config retries env st
  unfold breaksChangedAtFirstAddress
  cases heq : runLoop env config.tor_control_port env.pre_ip 0
      (retries + 1) "" env.pre_ip with
  | error e =>
    rw [changeWorkerRun_error_eq config retries env st e heq]
  | ok t =>
    obtain ⟨nip, nnote, c⟩ := t
    rw [changeWorkerRun_ok_eq config retries env st nip nnote c heq]
    by_cases hsame : nip = env.pre_ip
    · simp [hsame]
    · simp [hsame]

/-- C4 (amended): the retry loop compares each newly observed address
against the original pre-rotation address, which the variable `old_ip`
holds unchanged for the whole loop; consequently every outcome reporting
`changed` has a defined final address that differs from the very first
(pre-rotation) address, and the premature-change scenario for oscillating
sequences cannot occur. -/
theorem comparison_is_against_pre_rotation_address (config : AppConfig)
    (retries : Nat) (env : WorkerEnv) (st : LogState) (res : ChangeResult)
    (calls : Nat)
    (h : (changeWorkerRun config retries env st).1 = Except.ok (res, calls))
    (hch : res.changed = true) :
    res.old_tor_ip = env.pre_ip ∧ res.new_tor_ip ≠ env.pre_ip ∧
      res.new_tor_ip ≠ notDefined := by
  cases heq : runLoop env config.tor_control_port env.pre_ip 0
      (retries + 1) "" env.pre_ip with
  | error e =>
    rw [changeWorkerRun_error_eq config retries env st e heq] at h
    simp at h
  | ok t =>
    obtain ⟨nip, nnote, c⟩ := t
    rw [changeWorkerRun_ok_eq config retries env st nip nnote c heq] at h
    simp only [Except.ok.injEq, Prod.mk.injEq] at h
    obtain ⟨h1, h2⟩ := h
    rw [← h1] at hch ⊢
    have hp := of_decide_eq_true hch
    exact ⟨rfl, hp.2.2, hp.1⟩

/-- C9: with a defined pre-rotation address, when iteration 0 fails the
break test but some later reachable iteration passes it, the run completes
with `changed = true` while still carrying the non-empty note set by the
earlier failed iteration — the note is never reset by a later success. -/
theorem note_persists_after_later_success (config : AppConfig)
    (retries : Nat) (env : WorkerEnv) (st : LogState)
    (hok : ∀ j, env.newnym j = Except.ok ())
    (hpre : env.pre_ip ≠ notDefined)
    (h0 : ¬ goodAt env env.pre_ip 0)
    (i : Nat) (hi : i ≤ retries) (hgood : goodAt env env.pre_ip i) :
    ∃ res calls,
      (changeWorkerRun config retries env st).1 = Except.ok (res, calls) ∧
      res.changed = true ∧ res.note = unchangedNote ∧ res.note ≠ "" := by
  have hex : ∃ m, goodAt env env.pre_ip m := ⟨i, hgood⟩
  have hk_good : goodAt env env.pre_ip (Nat.find hex) := Nat.find_spec hex
  have hk_min : ∀ j, j < Nat.find hex → ¬ goodAt env env.pre_ip j :=
    fun j hj => Nat.find_min hex hj
  have hk_le : Nat.find hex ≤ i := Nat.find_min' hex hgood
  have hk_pos : ¬ Nat.find hex = 0 := by
    intro hzero
    rw [hzero] at hk_good
    exact h0 hk_good
  have heq := runLoop_first_good env config.tor_control_port env.pre_ip hok
    (Nat.find hex) (retries + 1) 0 "" env.pre_ip (by omega)
    (by rw [Nat.zero_add]; exact hk_good)
    (fun j hj => by rw [Nat.zero_add]; exact hk_min j hj)
  rw [if_neg hk_pos] at heq
  have hw := changeWorkerRun_ok_eq config retries env st
    (env.resolved (0 + Nat.find hex)) unchangedNote (Nat.find hex + 1) heq
  refine ⟨_, Nat.find hex + 1, by rw [hw], ?_, rfl, ?_⟩
  · refine decide_eq_true ?_
    rw [Nat.zero_add]
    exact ⟨hk_good.1, hpre, hk_good.2⟩
  · show unchangedNote ≠ ""
    decide

/-! ### Reputation claim -/

/-- C8 (divergence witness): with a non-empty key and target, a successful
scan submission (status 200, extractable analysis id) and an analysis poll
answering with a non-200 status (here 429) without raising, the function
reaches the end of its try block with no return statement and yields no
`URLReputationResult` at all — contradicting its declared return type. -/
theorem reputation_check_none_on_non200_analysis :
    check_url_reputation "http://example.com" "test-key"
      (ReqResult.resp 200 (some "analysis-id"))
      (ReqResult.resp 429 (some ⟨0, 0, 0⟩)) "2026-01-01 00:00:00"
      = none := rfl

/-! ### Concrete environments for the witnesses -/

/-- The source's default configuration values. -/
def sampleConfig : AppConfig :=
  ⟨"socks5h://127.0.0.1:9050", 9051, true, "identity_history.log",
   false, "", "", false, "", true⟩

/-- An environment whose first post-NEWNYM resolution already differs from
the pre-rotation address. -/
def sampleEnvChange : WorkerEnv :=
  ⟨"9.9.9.9", "1.1.1.1", fun _ => "2.2.2.2", fun _ => Except.ok (),
   fun _ => none, "2026-01-01 00:00:00", true⟩

/-- An environment whose first iteration resolves the unchanged address and
whose second iteration resolves a fresh one. -/
def sampleEnvRetry : WorkerEnv :=
  ⟨"9.9.9.9", "1.1.1.1",
   fun i => if i = 0 then "1.1.1.1" else "2.2.2.2",
   fun _ => Except.ok (), fun _ => none, "2026-01-01 00:00:00", true⟩

/-- An environment whose very first NEWNYM attempt fails. -/
def sampleEnvFail : WorkerEnv :=
  ⟨"9.9.9.9", "1.1.1.1", fun _ => "1.1.1.1",
   fun _ => Except.error "connection refused", fun _ => none,
   "2026-01-01 00:00:00", true⟩

/-- The outcome `sampleEnvChange` produces on its single loop iteration. -/
def sampleOutcome : ChangeResult :=
  ⟨"2026-01-01 00:00:00", "9.9.9.9", "1.1.1.1", "2.2.2.2",
   notDefined, notDefined, notDefined, notDefined, true, ""⟩

/-- C1 witness: the bound and break characterization at retries = 2 on a
concrete always-succeeding environment. -/
theorem rotation_retry_bound_witness :
    (∀ j, sampleEnvChange.newnym j = Except.ok ()) ∧
    (∃ res calls,
      (changeWorkerRun sampleConfig 2 sampleEnvChange none).1 =
        Except.ok (res, calls) ∧
      calls ≤ 2 + 1 ∧
      (∀ k, k ≤ 2 → goodAt sampleEnvChange sampleEnvChange.pre_ip k →
        (∀ j, j < k → ¬ goodAt sampleEnvChange sampleEnvChange.pre_ip j) →
        calls = k + 1 ∧ res.new_tor_ip = sampleEnvChange.resolved k) ∧
      ((∀ k, k ≤ 2 → ¬ goodAt sampleEnvChange sampleEnvChange.pre_ip k) →
        calls = 2 + 1)) :=
  ⟨fun _ => rfl,
   rotation_retry_bound_and_first_break sampleConfig 2 sampleEnvChange none
     (fun _ => rfl)⟩

/-- C2 witness: the changed-iff characterization on the concrete run of
`sampleEnvChange`. -/
theorem changed_flag_iff_witness :
    ((changeWorkerRun sampleConfig 2 sampleEnvChange none).1 =
      Except.ok (sampleOutcome, 1)) ∧
    (sampleOutcome.changed = true ↔
      (sampleOutcome.new_tor_ip ≠ notDefined ∧
       sampleOutcome.old_tor_ip ≠ notDefined ∧
       sampleOutcome.new_tor_ip ≠ sampleOutcome.old_tor_ip)) :=
  ⟨rfl,
   changed_flag_iff sampleConfig 2 sampleEnvChange none sampleOutcome 1 rfl⟩

/-- C3 witness: a NEWNYM failure at iteration 0 aborts the concrete run
with the wrapped error and leaves the (absent) log untouched. -/
theorem control_failure_aborts_run_witness :
    (0 ≤ 2) ∧
    sampleEnvFail.newnym 0 = Except.error "connection refused" ∧
    changeWorkerRun sampleConfig 2 sampleEnvFail none =
      (Except.error ("Failed to connect to Tor control port "
        ++ toString sampleConfig.tor_control_port ++ ": "
        ++ "connection refused"), none) :=
  ⟨Nat.zero_le 2, rfl,
   control_failure_aborts_run sampleConfig 2 sampleEnvFail none 0
     "connection refused" (Nat.zero_le 2) rfl
     (fun j hj => absurd hj (Nat.not_lt_zero j))
     (fun j hj => absurd hj (Nat.not_lt_zero j))⟩

/-- C4 witness: the amended comparison property on the concrete run of
`sampleEnvChange`. -/
theorem comparison_against_pre_rotation_witness :
    ((changeWorkerRun sampleConfig 2 sampleEnvChange none).1 =
      Except.ok (sampleOutcome, 1)) ∧
    sampleOutcome.changed = true ∧
    (sampleOutcome.old_tor_ip = sampleEnvChange.pre_ip ∧
     sampleOutcome.new_tor_ip ≠ sampleEnvChange.pre_ip ∧
     sampleOutcome.new_tor_ip ≠ notDefined) :=
  ⟨rfl, rfl,
   comparison_is_against_pre_rotation_address sampleConfig 2 sampleEnvChange
     none sampleOutcome 1 rfl rfl⟩

/-- C9 witness: on `sampleEnvRetry` iteration 0 resolves the unchanged
address and iteration 1 succeeds, so the outcome reports a change while
carrying the earlier non-empty note. -/
theorem note_persists_witness :
    (∀ j, sampleEnvRetry.newnym j = Except.ok ()) ∧
    sampleEnvRetry.pre_ip ≠ notDefined ∧
    ¬ goodAt sampleEnvRetry sampleEnvRetry.pre_ip 0 ∧
    (1 ≤ 2) ∧
    goodAt sampleEnvRetry sampleEnvRetry.pre_ip 1 ∧
    (∃ res calls,
      (changeWorkerRun sampleConfig 2 sampleEnvRetry none).1 =
        Except.ok (res, calls) ∧
      res.changed = true ∧ res.note = unchangedNote ∧ res.note ≠ "") :=
  ⟨fun _ => rfl, by decide, by decide, by decide, by decide,
   note_persists_after_later_success sampleConfig 2 sampleEnvRetry none
     (fun _ => rfl) (by decide) (by decide) 1 (by decide) (by decide)⟩

/-- An environment realizing the oscillation scenario of the open question:
the resolved sequence is [undetermined, 1.1.1.1, 1.1.1.1] against the
pre-rotation address 1.1.1.1, so iteration 1 resolves an address that
differs from the value held by `new_ip` at that iteration's start
(undetermined) yet equals the very first address. -/
def sampleEnvOscillate : WorkerEnv :=
  ⟨"9.9.9.9", "1.1.1.1",
   fun i => if i = 0 then notDefined else "1.1.1.1",
   fun _ => Except.ok (), fun _ => none, "2026-01-01 00:00:00", true⟩

/-- C4 counterexample at a concrete input: on the oscillating sequence of
`sampleEnvOscillate` the loop does NOT break with changed at the address
equal to the very first one — it runs all three iterations, signals three
times, and reports changed = false with the final address equal to the
pre-rotation one, because the comparison is against the fixed pre-rotation
address. -/
theorem oscillating_sequence_does_not_report_changed :
    breaksChangedAtFirstAddress sampleConfig 2 sampleEnvOscillate none
      = false ∧
    (changeWorkerRun sampleConfig 2 sampleEnvOscillate none).1 =
      Except.ok (⟨"2026-01-01 00:00:00", "9.9.9.9", "1.1.1.1", "1.1.1.1",
        notDefined, notDefined, notDefined, notDefined, false,
        unchangedNote⟩, 3) :=
  ⟨rfl, rfl⟩
